import Mathlib

/-!
Verification of the frr-agent core (src/main.rs, src/reload.rs).

Shallow embedding conventions:
* Byte streams are `List Nat` (each element a byte value < 256); the end of the
  list models the peer closing the connection (a `read_exact` past the end of
  the list fails, as it does on a closed socket).
* Rust `String` payload data is kept as its UTF-8 byte list; `String.from_utf8`
  is modelled by the `validUtf8` checker below (standard UTF-8, as Rust's).
* The filesystem is an association list from path to file contents; the
  operating system's verdict on each I/O step (directory creation, file open,
  write, read-back, subprocess spawn/wait/exit) is an explicit environment
  value, since the code only branches on success/failure of those calls.
* The agent is single threaded (the only spawned thread is the signal handler,
  which never reloads), so the session and accept loops are modelled as
  functions producing a linear event trace.
-/

/-! Byte-level helpers for the fixed 16-byte frame header.  Both sides of the
wire use `to_ne_bytes` / `from_ne_bytes`; we fix the byte order to
little-endian, which is sound for the round-trip statements because encoder and
decoder use the same order. -/

/-- Little-endian encoding of a natural number into `w` bytes
(`u64::to_ne_bytes` with `w = 8`). -/
def toLeBytes : Nat → Nat → List Nat
  | 0, _ => []
  | w + 1, n => n % 256 :: toLeBytes w (n / 256)

/-- Little-endian decoding of a byte list into a natural number
(`u64::from_ne_bytes`). -/
def fromLeBytes : List Nat → Nat
  | [] => 0
  | b :: bs => b + 256 * fromLeBytes bs

/-- Generation ids are Rust `i64` values (`pub type GenId = i64`), embedded as
integers; the i64 range is imposed as a hypothesis where it matters. -/
abbrev GenId := Int

/-- Two's-complement little-endian encoding of an `i64` (`i64::to_ne_bytes`). -/
def i64ToLeBytes (g : GenId) : List Nat :=
  toLeBytes 8 (g % (2 : Int) ^ 64).toNat

/-- Two's-complement decoding of 8 little-endian bytes into an `i64`
(`i64::from_ne_bytes`). -/
def i64FromLeBytes (bs : List Nat) : GenId :=
  let n := fromLeBytes bs
  if n < 2 ^ 63 then (n : Int) else (n : Int) - 2 ^ 64

/-- Standard UTF-8 validity over a byte list; models the check done by
`String::from_utf8` in `receive_request` (main.rs line 96). -/
def validUtf8 : List Nat → Bool
  | [] => true
  | b :: rest =>
    if b < 0x80 then validUtf8 rest
    else if b < 0xC2 then false
    else if b < 0xE0 then
      match rest with
      | c :: r => decide (0x80 ≤ c ∧ c ≤ 0xBF) && validUtf8 r
      | [] => false
    else if b < 0xF0 then
      match rest with
      | c :: d :: r =>
        decide ((if b = 0xE0 then 0xA0 else 0x80) ≤ c ∧
                c ≤ (if b = 0xED then 0x9F else 0xBF)) &&
        (decide (0x80 ≤ d ∧ d ≤ 0xBF) && validUtf8 r)
      | _ => false
    else if b < 0xF5 then
      match rest with
      | c :: d :: e :: r =>
        decide ((if b = 0xF0 then 0x90 else 0x80) ≤ c ∧
                c ≤ (if b = 0xF4 then 0x8F else 0xBF)) &&
        (decide (0x80 ≤ d ∧ d ≤ 0xBF) &&
         (decide (0x80 ≤ e ∧ e ≤ 0xBF) && validUtf8 r))
      | _ => false
    else false

/-! Wire codec (main.rs lines 78-118). -/

/-- Decoder for one request frame, from `receive_request` (main.rs lines
78-101).  The stream is the sequence of bytes still to arrive before the peer
closes; a successful decode returns the generation id, the payload bytes (a
valid-UTF-8 Rust `String`), and the undecoded remainder of the stream.  The
`usize::try_from(u64)` step of the source is infallible on the 64-bit targets
the agent runs on, so it introduces no failure case here. -/
def receive_request (stream : List Nat) :
    Except String ((GenId × List Nat) × List Nat) :=
  if stream.length < 8 then Except.error "Could not receive msg-len" else
  if stream.length < 16 then Except.error "Could not receive genid" else
  let msg_size := fromLeBytes (stream.take 8)
  let genid := i64FromLeBytes ((stream.drop 8).take 8)
  let body := stream.drop 16
  if body.length < msg_size then Except.error "Could not receive request body" else
  if validUtf8 (body.take msg_size) then
    Except.ok ((genid, body.take msg_size), body.drop msg_size)
  else Except.error "Could not decode request body"

/-- Encoder for one response frame, from `send_response` (main.rs lines
103-118): 8 length bytes, then 8 generation-id bytes, then the payload. -/
def send_response (genid : GenId) (msg : List Nat) : List Nat :=
  toLeBytes 8 msg.length ++ (i64ToLeBytes genid ++ msg)

/-! Reload module (src/reload.rs). -/

/-- The error taxonomy of reload.rs (`enum FrrErr`, lines 29-41), with the
source's spelling of the first variant kept. -/
inductive FrrErr where
  | COnfigFileWriteFailed (detail : String)
  | CmdSpawnFailed (detail : String)
  | CmdWaitFailed (detail : String)
  | ReloadErr
  | Failure (detail : String)
deriving DecidableEq

/-- The `Display` rendering of `FrrErr` generated by the `#[error(...)]`
attributes in reload.rs lines 31-40; this is the collapsing function applied
by `frr_reload` before the string crosses the wire. -/
def FrrErr.asString : FrrErr → String
  | .COnfigFileWriteFailed d => "Failed to write config file: " ++ d
  | .CmdSpawnFailed d => "Failed to spawn reloader: " ++ d
  | .CmdWaitFailed d => "Failed to wait for reloader: " ++ d
  | .ReloadErr => "Reloading error"
  | .Failure d => "Internal failure: " ++ d

/-- Outcome the operating system gives one subprocess invocation: spawn
failure, wait failure, or an exit with a status code and captured streams
(`ExitStatus::success()` holds exactly for code 0). -/
inductive ExecOutcome where
  | spawnFailed (oserr : String)
  | waitFailed (oserr : String)
  | exited (code : Nat) (stdout' stderr' : String)
deriving DecidableEq

/-- Whether the subprocess invocation exited with status code 0. -/
def ExecOutcome.exitOk : ExecOutcome → Bool
  | .exited code _ _ => code == 0
  | _ => false

/-- The `execute` helper of reload.rs (lines 43-95): spawn the reloader with
`--test` or `--reload` plus the shared args and the staged file path, wait,
and classify.  The command line (`reloader`, `reload_args`, `conf_file`,
`test`) selects the subprocess but the classification depends only on the
operating system's outcome `os`, which is passed explicitly.  The
`conf_file.to_str()` step cannot fail here because paths in this embedding are
Lean strings, so the `FrrErr.Failure "Bad filename"` branch is unreachable. -/
def execute (os : ExecOutcome) (_reloader : String) (_reload_args : List String)
    (_conf_file : String) (_test : Bool) : Except FrrErr Unit :=
  match os with
  | .spawnFailed e => Except.error (FrrErr.CmdSpawnFailed e)
  | .waitFailed e => Except.error (FrrErr.CmdWaitFailed e)
  | .exited code _ _ =>
    if code = 0 then Except.ok () else Except.error FrrErr.ReloadErr

/-- Filesystem: association list from path to file contents (contents are the
raw bytes written).  Lookup finds the most recent write. -/
abbrev FsState := List (String × List Nat)

/-- Create-or-truncate-then-write semantics: the new binding shadows any
older binding for the same path. -/
def fsSet (fs : FsState) (path : String) (contents : List Nat) : FsState :=
  (path, contents) :: fs

/-- The staged file path computed in `write_config_file` (reload.rs lines
97-101): `PathBuf::from(outdir)`, push `frr-config-gen-<genid>`, set extension
`conf`. -/
def conf_file_path (outdir : String) (genid : GenId) : String :=
  outdir ++ "/frr-config-gen-" ++ toString genid ++ ".conf"

/-- Operating-system verdicts for the four fallible I/O steps of
`write_config_file`: `create_dir_all`, `OpenOptions::open`, `write_all`, and
the diagnostic `read_to_string` read-back. -/
structure StageEnv where
  create_dir : Except String Unit
  open_file : Except String Unit
  write_all : Except String Unit
  read_back_ok : Bool
  read_back_err : String

/-- Whether every I/O step of staging succeeds. -/
def StageEnv.allOk (e : StageEnv) : Bool :=
  (match e.create_dir with | .ok _ => true | .error _ => false) &&
  ((match e.open_file with | .ok _ => true | .error _ => false) &&
   ((match e.write_all with | .ok _ => true | .error _ => false) &&
    e.read_back_ok))

/-- `write_config_file` (reload.rs lines 97-131): compute the deterministic
path, create missing directories, create-or-truncate the file, write the full
config, then read the file back for a diagnostic log line.  Any failing step
yields `COnfigFileWriteFailed` with that step's message prefix.  The returned
state reflects what is on disk when the function returns: opening truncates
the file, a successful write leaves the full contents there, and the
read-back step changes nothing on disk. -/
def write_config_file (env : StageEnv) (fs : FsState) (genid : GenId)
    (config : List Nat) (outdir : String) : Except FrrErr String × FsState :=
  let conf_file := conf_file_path outdir genid
  match env.create_dir with
  | .error e =>
    (Except.error (FrrErr.COnfigFileWriteFailed ("Could not create dir: " ++ e)), fs)
  | .ok _ =>
    match env.open_file with
    | .error e =>
      (Except.error (FrrErr.COnfigFileWriteFailed ("Unable to create file: " ++ e)), fs)
    | .ok _ =>
      let fs1 := fsSet fs conf_file []
      match env.write_all with
      | .error e =>
        (Except.error (FrrErr.COnfigFileWriteFailed ("Unable to write config file: " ++ e)), fs1)
      | .ok _ =>
        let fs2 := fsSet fs1 conf_file config
        if env.read_back_ok then (Except.ok conf_file, fs2)
        else
          (Except.error (FrrErr.COnfigFileWriteFailed
              ("Unable to read written file: " ++ env.read_back_err)), fs2)

/-- The two subprocess phases of a reload, in source order. -/
inductive Phase where
  | test
  | reload
deriving DecidableEq

/-- Environment for one whole reload attempt: the staging verdicts plus the
operating-system outcome of each of the two possible subprocess
invocations. -/
structure ReloadEnv where
  stage : StageEnv
  test_exec : ExecOutcome
  reload_exec : ExecOutcome

/-- `do_frr_reload` (reload.rs lines 133-148): stage, then `--test`, then
`--reload`, each step short-circuiting via `?`.  Alongside the source's result
and the filesystem, the embedding returns the list of subprocess invocations
actually performed, in order. -/
def do_frr_reload (env : ReloadEnv) (fs : FsState) (reloader : String)
    (genid : GenId) (config : List Nat) (outdir : String)
    (reload_args : List String) : Except FrrErr Unit × FsState × List Phase :=
  match write_config_file env.stage fs genid config outdir with
  | (.error e, fs1) => (Except.error e, fs1, [])
  | (.ok config_file, fs1) =>
    match execute env.test_exec reloader reload_args config_file true with
    | .error e => (Except.error e, fs1, [Phase.test])
    | .ok _ =>
      match execute env.reload_exec reloader reload_args config_file false with
      | .error e => (Except.error e, fs1, [Phase.test, Phase.reload])
      | .ok _ => (Except.ok (), fs1, [Phase.test, Phase.reload])

/-- `frr_reload` (reload.rs lines 150-161): run the reload and collapse the
outcome to the status string sent to the client (`Ok` on success, the
`Display` rendering of the error otherwise). -/
def frr_reload (env : ReloadEnv) (fs : FsState) (reloader : String)
    (genid : GenId) (config : List Nat) (outdir : String)
    (reload_args : List String) : String × FsState × List Phase :=
  match do_frr_reload env fs reloader genid config outdir reload_args with
  | (.ok _, fs1, tr) => ("Ok", fs1, tr)
  | (.error e, fs1, tr) => (e.asString, fs1, tr)

/-! Session handler and accept loop (main.rs lines 122-289). -/

/-- Resolved command-line arguments of the agent (struct `Args`, main.rs lines
140-204), restricted to the fields the session logic reads.  Optional path
arguments are kept as options with the source's defaults applied by the
accessors below. -/
structure Args where
  outdir : Option String
  reloader : Option String
  bindir : Option String
  rundir : Option String
  confdir : Option String
  always_ok : Bool
  proc_time : Option Nat

/-- `Args::binddir` (main.rs line 174). -/
def Args.binddir (a : Args) : String := a.bindir.getD "/usr/local/bin"

/-- `Args::rundir` (main.rs line 177). -/
def Args.rundirD (a : Args) : String := a.rundir.getD "/var/run/frr"

/-- `Args::confdir` (main.rs line 180). -/
def Args.confdirD (a : Args) : String := a.confdir.getD "/etc/frr"

/-- `Args::reloader` (main.rs line 183). -/
def Args.reloaderD (a : Args) : String := a.reloader.getD "/hedgehog/frr-reload.py"

/-- `Args::outdir` (main.rs line 188). -/
def Args.outdirD (a : Args) : String := a.outdir.getD "/tmp/configs/hedgehog"

/-- `build_reload_args` (main.rs lines 122-133). -/
def build_reload_args (a : Args) : List String :=
  ["--stdout", "--debug", "--bindir", a.binddir, "--rundir", a.rundirD,
   "--confdir", a.confdirD]

/-- The UTF-8 bytes of the literal `"KEEPALIVE"` compared against the request
payload in main.rs line 265. -/
def KEEPALIVE : List Nat := [75, 69, 69, 80, 65, 76, 73, 86, 69]

/-- Observable events of one agent execution, in the order the single thread
performs them.  `reloadStart`/`reloadEnd` bracket one invocation of the
two-phase reload sequence (`frr_reload`); `exec` marks one subprocess
invocation inside it; `recv` marks a successfully decoded request and
`respond` a successfully sent response. -/
inductive Event where
  | recv (genid : GenId)
  | sleep (secs : Nat)
  | reloadStart (genid : GenId)
  | exec (ph : Phase)
  | reloadEnd (genid : GenId)
  | respond (genid : GenId) (msg : String)
deriving DecidableEq

/-- Dispatch policy of the session loop (main.rs lines 265-280), evaluated
after the artificial delay: `KEEPALIVE` short-circuit first, then the
`always_ok` test mode, otherwise a synchronous call into `frr_reload`.  The
returned trace lists the events of this dispatch. -/
def dispatch (a : Args) (env : ReloadEnv) (fs : FsState) (genid : GenId)
    (request : List Nat) : String × FsState × List Event :=
  if request = KEEPALIVE then ("Ok", fs, [])
  else if a.always_ok then ("Ok", fs, [])
  else
    let r := frr_reload env fs a.reloaderD genid request a.outdirD (build_reload_args a)
    (r.1, r.2.1,
      Event.reloadStart genid :: (r.2.2.map Event.exec ++ [Event.reloadEnd genid]))

/-- `Args::proc_time` (main.rs lines 198-203): sleep for the configured number
of seconds when the testing flag is set, otherwise do nothing. -/
def proc_time_events (a : Args) : List Event :=
  match a.proc_time with
  | some t => [Event.sleep t]
  | none => []

/-- Handling of one successfully decoded request (main.rs lines 264-280): the
artificial delay runs first, then the dispatch decision. -/
def handle_request (a : Args) (env : ReloadEnv) (fs : FsState) (genid : GenId)
    (request : List Nat) : String × FsState × List Event :=
  let r := dispatch a env fs genid request
  (r.1, r.2.1, proc_time_events a ++ r.2.2)

/-- The per-connection session loop (main.rs lines 258-286).  `renv` gives the
operating-system environment of the reload attempted for the i-th request of
the connection and `sends i` whether sending the i-th response succeeds.  The
loop ends when a frame fails to decode or a send fails (the source shuts the
stream down and breaks to the accept loop).  The `fuel` argument is only a
termination device: each iteration consumes at least 16 bytes of the stream,
so any fuel exceeding the stream length makes the fuel-0 case unreachable
(see `session_loop`). -/
def session_go (a : Args) (renv : Nat → ReloadEnv) (sends : Nat → Bool) :
    Nat → Nat → List Nat → FsState → FsState × List Event
  | 0, _, _, fs => (fs, [])
  | fuel + 1, i, stream, fs =>
    match receive_request stream with
    | .error _ => (fs, [])
    | .ok ((genid, request), rest) =>
      let r := handle_request a (renv i) fs genid request
      if sends i then
        let k := session_go a renv sends fuel (i + 1) rest r.2.1
        (k.1, Event.recv genid :: (r.2.2 ++ Event.respond genid r.1 :: k.2))
      else
        (r.2.1, Event.recv genid :: r.2.2)

/-- One session over a finite incoming byte stream: runs `session_go` with
enough fuel that the loop only ever stops for the source's reasons. -/
def session_loop (a : Args) (renv : Nat → ReloadEnv) (sends : Nat → Bool)
    (stream : List Nat) (fs : FsState) : FsState × List Event :=
  session_go a renv sends (stream.length + 1) 0 stream fs

/-- Number of well-formed frames at the front of a stream (the requests the
session loop will decode before hitting a malformed or missing frame), with
the same fuel device as `session_go`. -/
def frames_go : Nat → List Nat → Nat
  | 0, _ => 0
  | fuel + 1, stream =>
    match receive_request stream with
    | .error _ => 0
    | .ok (_, rest) => frames_go fuel rest + 1

/-- Number of decodable frames at the front of a stream. -/
def frames (stream : List Nat) : Nat := frames_go (stream.length + 1) stream

/-- One accepted connection: its incoming bytes plus the per-request
environment. -/
structure Conn where
  stream : List Nat
  renv : Nat → ReloadEnv
  sends : Nat → Bool

/-- The accept loop of `main` (main.rs lines 254-288): connections are served
strictly one after the other on the single thread; each session runs to its
end before the next accept.  The process trace is the concatenation of the
session traces. -/
def main_loop (a : Args) (conns : List Conn) (fs : FsState) :
    FsState × List Event :=
  match conns with
  | [] => (fs, [])
  | c :: rest =>
    let r := session_loop a c.renv c.sends c.stream fs
    let k := main_loop a rest r.1
    (k.1, r.2 ++ k.2)

/-! Trace observers used by the claims. -/

/-- Scanner tracking how many reload sequences are in flight along a trace.
`none` records a violation: a reload starting while another is in flight (or
an end without a start).  A trace `tr` with `reloadScan (some 0) tr = some 0`
has its reload sequences strictly sequential and non-overlapping. -/
def reloadScan : Option Nat → List Event → Option Nat
  | none, _ => none
  | some k, [] => some k
  | some k, Event.reloadStart _ :: tr =>
    if k = 0 then reloadScan (some 1) tr else none
  | some k, Event.reloadEnd _ :: tr =>
    if k = 1 then reloadScan (some 0) tr else none
  | some k, _ :: tr => reloadScan (some k) tr

/-- Scanner checking that receives and responses strictly alternate,
starting and ending with no request pending: every decoded request is
answered by exactly one response before the next request is read. -/
def rrScan : Option Bool → List Event → Option Bool
  | none, _ => none
  | some b, [] => some b
  | some b, Event.recv _ :: tr =>
    if b then none else rrScan (some true) tr
  | some b, Event.respond _ _ :: tr =>
    if b then rrScan (some false) tr else none
  | some b, _ :: tr => rrScan (some b) tr

/-- Whether an event is a successful request decode. -/
def Event.isRecv : Event → Bool
  | .recv _ => true
  | _ => false

/-- Whether an event is a sent response. -/
def Event.isRespond : Event → Bool
  | .respond _ _ => true
  | _ => false

/-- Whether an event marks the start or end of a reload sequence. -/
def Event.isReloadMark : Event → Bool
  | .reloadStart _ => true
  | .reloadEnd _ => true
  | _ => false

/-- Number of successfully decoded requests in a trace. -/
def countRecv (tr : List Event) : Nat := tr.countP (fun e => e.isRecv)

/-- Whether the result of `do_frr_reload` is a staging failure. -/
def isStagingErr : Except FrrErr Unit → Bool
  | .error (.COnfigFileWriteFailed _) => true
  | _ => false

/-! Helper lemmas: byte encoding. -/

theorem toLeBytes_length (w n : Nat) : (toLeBytes w n).length = w := by
  induction w generalizing n with
  | zero => rfl
  | succ w ih => simp [toLeBytes, ih]

theorem fromLeBytes_toLeBytes (w n : Nat) (h : n < 256 ^ w) :
    fromLeBytes (toLeBytes w n) = n := by
  induction w generalizing n with
  | zero =>
    simp only [pow_zero, Nat.lt_one_iff] at h
    simp [toLeBytes, fromLeBytes, h]
  | succ w ih =>
    have h2 : n / 256 < 256 ^ w := by
      rw [Nat.div_lt_iff_lt_mul (by norm_num)]
      calc n < 256 ^ (w + 1) := h
        _ = 256 ^ w * 256 := by ring
    simp only [toLeBytes, fromLeBytes, ih _ h2]
    omega

theorem i64_roundtrip (g : Int) (h1 : -(2 : Int) ^ 63 ≤ g) (h2 : g < 2 ^ 63) :
    i64FromLeBytes (i64ToLeBytes g) = g := by
  unfold i64ToLeBytes i64FromLeBytes
  have hn : (g % (2 : Int) ^ 64).toNat < 256 ^ 8 := by
    have hm2 : g % (2 : Int) ^ 64 < 2 ^ 64 := Int.emod_lt_of_pos g (by norm_num)
    have : ((256 : Nat) ^ 8 : Int) = (2 : Int) ^ 64 := by norm_num
    omega
  rw [fromLeBytes_toLeBytes 8 _ hn]
  have e1 : (2 : Nat) ^ 63 = 9223372036854775808 := by norm_num
  have e2 : (2 : Int) ^ 64 = 18446744073709551616 := by norm_num
  have e3 : (2 : Int) ^ 63 = 9223372036854775808 := by norm_num
  rw [e3] at h1 h2
  rw [e2]
  rw [e2] at hn
  dsimp only
  rw [e1]
  split <;> · show (_ : Int) = g; omega

/-! Helper lemmas: decoder characterization and frame round-trip. -/

theorem receive_request_ok (stream : List Nat)
    (h16 : 16 ≤ stream.length)
    (hN : fromLeBytes (stream.take 8) + 16 ≤ stream.length)
    (hU : validUtf8 ((stream.drop 16).take (fromLeBytes (stream.take 8))) = true) :
    receive_request stream = Except.ok
      ((i64FromLeBytes ((stream.drop 8).take 8),
        (stream.drop 16).take (fromLeBytes (stream.take 8))),
       (stream.drop 16).drop (fromLeBytes (stream.take 8))) := by
  unfold receive_request
  rw [if_neg (by omega), if_neg (by omega)]
  dsimp only
  rw [if_neg (by simp only [List.length_drop]; omega), if_pos hU]

theorem receive_request_ok_shape {stream : List Nat}
    {v : (GenId × List Nat) × List Nat}
    (h : receive_request stream = Except.ok v) :
    16 ≤ stream.length ∧
    fromLeBytes (stream.take 8) + 16 ≤ stream.length ∧
    validUtf8 ((stream.drop 16).take (fromLeBytes (stream.take 8))) = true ∧
    v = ((i64FromLeBytes ((stream.drop 8).take 8),
          (stream.drop 16).take (fromLeBytes (stream.take 8))),
         (stream.drop 16).drop (fromLeBytes (stream.take 8))) := by
  unfold receive_request at h
  dsimp only at h
  split_ifs at h with h1 h2 h3 h4
  injection h with h'
  subst h'
  simp only [List.length_drop] at h3
  exact ⟨by omega, by omega, h4, rfl⟩

theorem receive_request_rest_lt {stream : List Nat}
    {v : (GenId × List Nat) × List Nat}
    (h : receive_request stream = Except.ok v) : v.2.length < stream.length := by
  obtain ⟨h16, hN, -, hv⟩ := receive_request_ok_shape h
  subst hv
  simp only [List.length_drop]
  omega

theorem receive_send_roundtrip (g : Int) (msg : List Nat)
    (hg1 : -(2 : Int) ^ 63 ≤ g) (hg2 : g < 2 ^ 63) (hlen : msg.length < 2 ^ 64)
    (hutf : validUtf8 msg = true) :
    receive_request (send_response g msg) = Except.ok ((g, msg), []) := by
  have hA : (toLeBytes 8 msg.length).length = 8 := toLeBytes_length 8 _
  have hB : (i64ToLeBytes g).length = 8 := toLeBytes_length 8 _
  have ht8 : (send_response g msg).take 8 = toLeBytes 8 msg.length :=
    List.take_left' hA
  have hd8 : (send_response g msg).drop 8 = i64ToLeBytes g ++ msg :=
    List.drop_left' hA
  have hd16 : (send_response g msg).drop 16 = msg := by
    unfold send_response
    rw [← List.append_assoc]
    exact List.drop_left' (by simp [hA, hB])
  have hlen8 : fromLeBytes ((send_response g msg).take 8) = msg.length := by
    rw [ht8]
    exact fromLeBytes_toLeBytes 8 _ (by norm_num at hlen ⊢; omega)
  have hS : (send_response g msg).length = 16 + msg.length := by
    simp [send_response, hA, hB]
    omega
  have hmain := receive_request_ok (send_response g msg) (by omega)
    (by rw [hlen8]; omega)
    (by rw [hd16, hlen8, List.take_length]; exact hutf)
  rw [hmain, hd16, hlen8, List.take_length, List.drop_length, hd8,
    List.take_left' hB, i64_roundtrip g hg1 hg2]

/-! Helper lemmas: string distinctness. -/

theorem append_ne_of_char (p d q : String) (i : Nat) (hp : i < p.data.length)
    (hne : p.data[i]? ≠ q.data[i]?) : p ++ d ≠ q := by
  intro he
  apply hne
  rw [← he, String.data_append, List.getElem?_append, if_pos hp]

theorem append_ne_append_of_char (p d q e : String) (i : Nat)
    (hp : i < p.data.length) (hq : i < q.data.length)
    (hne : p.data[i]? ≠ q.data[i]?) : p ++ d ≠ q ++ e := by
  intro he
  apply hne
  have h1 : (p ++ d).data[i]? = p.data[i]? := by
    rw [String.data_append, List.getElem?_append, if_pos hp]
  have h2 : (q ++ e).data[i]? = q.data[i]? := by
    rw [String.data_append, List.getElem?_append, if_pos hq]
  rw [← h1, ← h2, he]

theorem frrErr_asString_ne_Ok (e : FrrErr) : e.asString ≠ "Ok" := by
  cases e with
  | COnfigFileWriteFailed d =>
    exact append_ne_of_char _ d _ 0 (by decide) (by decide)
  | CmdSpawnFailed d =>
    exact append_ne_of_char _ d _ 0 (by decide) (by decide)
  | CmdWaitFailed d =>
    exact append_ne_of_char _ d _ 0 (by decide) (by decide)
  | ReloadErr => decide
  | Failure d =>
    exact append_ne_of_char _ d _ 0 (by decide) (by decide)

/-! Helper lemmas: reload module. -/

theorem execute_ok_iff (os : ExecOutcome) (r : String) (a : List String)
    (c : String) (t : Bool) :
    execute os r a c t = Except.ok () ↔ os.exitOk = true := by
  cases os with
  | spawnFailed e => simp [execute, ExecOutcome.exitOk]
  | waitFailed e => simp [execute, ExecOutcome.exitOk]
  | exited code o e =>
    by_cases hc : code = 0 <;> simp [execute, ExecOutcome.exitOk, hc]

theorem execute_ok (os : ExecOutcome) (r : String) (a : List String)
    (c : String) (t : Bool) (h : os.exitOk = true) :
    execute os r a c t = Except.ok () := (execute_ok_iff os r a c t).mpr h

theorem execute_fail (os : ExecOutcome) (r : String) (a : List String)
    (c : String) (t : Bool) (h : os.exitOk = false) :
    ∃ e, execute os r a c t = Except.error e := by
  cases os with
  | spawnFailed e => exact ⟨_, rfl⟩
  | waitFailed e => exact ⟨_, rfl⟩
  | exited code o e =>
    simp only [ExecOutcome.exitOk] at h
    simp only [execute, if_neg (by simpa using h)]
    exact ⟨_, rfl⟩

theorem write_config_file_ok (env : StageEnv) (fs : FsState) (genid : GenId)
    (config : List Nat) (outdir : String) (h : env.allOk = true) :
    write_config_file env fs genid config outdir =
      (Except.ok (conf_file_path outdir genid),
       fsSet (fsSet fs (conf_file_path outdir genid) [])
         (conf_file_path outdir genid) config) := by
  obtain ⟨cd, op, wr, rb, re⟩ := env
  simp only [StageEnv.allOk, Bool.and_eq_true] at h
  cases cd <;> cases op <;> cases wr <;> simp_all [write_config_file]

theorem write_config_file_fail (env : StageEnv) (fs : FsState) (genid : GenId)
    (config : List Nat) (outdir : String) (h : env.allOk = false) :
    ∃ d fs1, write_config_file env fs genid config outdir =
      (Except.error (FrrErr.COnfigFileWriteFailed d), fs1) := by
  obtain ⟨cd, op, wr, rb, re⟩ := env
  simp only [StageEnv.allOk] at h
  cases cd <;> cases op <;> cases wr <;> cases rb <;>
    first
    | exact ⟨_, _, rfl⟩
    | simp_all [write_config_file]

/-! Claim C1. -/

/-- C1: the reload operation is strictly two-phase in order.  If staging
fails, the result is a staging failure and no subprocess is invoked (the
invocation list is empty); if the `--test` invocation does not exit with
status 0 (non-zero exit, spawn failure, or wait failure), the `--reload`
invocation never appears in the invocation list; and the result is
success — collapsed to the response string `Ok` — if and only if staging
succeeds and both invocations exit with status code 0. -/
theorem c1_reload_two_phase (env : ReloadEnv) (fs : FsState) (reloader : String)
    (genid : GenId) (config : List Nat) (outdir : String)
    (reload_args : List String) :
    (env.stage.allOk = false →
      isStagingErr (do_frr_reload env fs reloader genid config outdir reload_args).1 = true ∧
      (do_frr_reload env fs reloader genid config outdir reload_args).2.2 = []) ∧
    (env.test_exec.exitOk = false →
      Phase.reload ∉ (do_frr_reload env fs reloader genid config outdir reload_args).2.2) ∧
    ((do_frr_reload env fs reloader genid config outdir reload_args).1 = Except.ok () ↔
      (env.stage.allOk && (env.test_exec.exitOk && env.reload_exec.exitOk)) = true) ∧
    ((frr_reload env fs reloader genid config outdir reload_args).1 = "Ok" ↔
      (env.stage.allOk && (env.test_exec.exitOk && env.reload_exec.exitOk)) = true) := by
  by_cases hstage : env.stage.allOk = true
  · have hw := write_config_file_ok env.stage fs genid config outdir hstage
    by_cases htest : env.test_exec.exitOk = true
    · have hte := execute_ok env.test_exec reloader reload_args
        (conf_file_path outdir genid) true htest
      by_cases hrel : env.reload_exec.exitOk = true
      · have hre := execute_ok env.reload_exec reloader reload_args
          (conf_file_path outdir genid) false hrel
        have hdo : do_frr_reload env fs reloader genid config outdir reload_args =
            (Except.ok (),
             fsSet (fsSet fs (conf_file_path outdir genid) [])
               (conf_file_path outdir genid) config,
             [Phase.test, Phase.reload]) := by
          simp only [do_frr_reload, hw, hte, hre]
        have hfr : (frr_reload env fs reloader genid config outdir reload_args).1 = "Ok" := by
          simp only [frr_reload, hdo]
        simp [hdo, hfr, hstage, htest, hrel]
      · obtain ⟨e, hre⟩ := execute_fail env.reload_exec reloader reload_args
          (conf_file_path outdir genid) false (by simpa using hrel)
        have hdo : do_frr_reload env fs reloader genid config outdir reload_args =
            (Except.error e,
             fsSet (fsSet fs (conf_file_path outdir genid) [])
               (conf_file_path outdir genid) config,
             [Phase.test, Phase.reload]) := by
          simp only [do_frr_reload, hw, hte, hre]
        have hfr : (frr_reload env fs reloader genid config outdir reload_args).1 =
            e.asString := by
          simp only [frr_reload, hdo]
        simp [hdo, hfr, hstage, htest, hrel, frrErr_asString_ne_Ok e]
    · obtain ⟨e, hte⟩ := execute_fail env.test_exec reloader reload_args
        (conf_file_path outdir genid) true (by simpa using htest)
      have hdo : do_frr_reload env fs reloader genid config outdir reload_args =
          (Except.error e,
           fsSet (fsSet fs (conf_file_path outdir genid) [])
             (conf_file_path outdir genid) config,
           [Phase.test]) := by
        simp only [do_frr_reload, hw, hte]
      have hfr : (frr_reload env fs reloader genid config outdir reload_args).1 =
          e.asString := by
        simp only [frr_reload, hdo]
      simp [hdo, hfr, hstage, htest, frrErr_asString_ne_Ok e]
  · obtain ⟨d, fs1, hw⟩ := write_config_file_fail env.stage fs genid config outdir
      (by simpa using hstage)
    have hdo : do_frr_reload env fs reloader genid config outdir reload_args =
        (Except.error (FrrErr.COnfigFileWriteFailed d), fs1, []) := by
      simp only [do_frr_reload, hw]
    have hfr : (frr_reload env fs reloader genid config outdir reload_args).1 =
        (FrrErr.COnfigFileWriteFailed d).asString := by
      simp only [frr_reload, hdo]
    simp [hdo, hfr, hstage, isStagingErr,
      frrErr_asString_ne_Ok (FrrErr.COnfigFileWriteFailed d)]

/-- Witness for C1 at concrete environments: a staging failure produces a
staging error with no subprocess invocation; a failing `--test` keeps
`--reload` out of the invocation list; a fully successful environment yields
`Success` and the response `Ok`. -/
theorem c1_witness :
    (isStagingErr (do_frr_reload
        ⟨⟨Except.error "disk full", Except.ok (), Except.ok (), true, ""⟩,
         ExecOutcome.exited 0 "" "", ExecOutcome.exited 0 "" ""⟩
        [] "/usr/bin/rl" 1 [97] "/tmp" []).1 = true ∧
      (do_frr_reload
        ⟨⟨Except.error "disk full", Except.ok (), Except.ok (), true, ""⟩,
         ExecOutcome.exited 0 "" "", ExecOutcome.exited 0 "" ""⟩
        [] "/usr/bin/rl" 1 [97] "/tmp" []).2.2 = []) ∧
    Phase.reload ∉ (do_frr_reload
        ⟨⟨Except.ok (), Except.ok (), Except.ok (), true, ""⟩,
         ExecOutcome.exited 2 "" "", ExecOutcome.exited 0 "" ""⟩
        [] "/usr/bin/rl" 1 [97] "/tmp" []).2.2 ∧
    (frr_reload
        ⟨⟨Except.ok (), Except.ok (), Except.ok (), true, ""⟩,
         ExecOutcome.exited 0 "" "", ExecOutcome.exited 0 "" ""⟩
        [] "/usr/bin/rl" 1 [97] "/tmp" []).1 = "Ok" := by
  refine ⟨?_, ?_, ?_⟩
  · exact (c1_reload_two_phase
      ⟨⟨Except.error "disk full", Except.ok (), Except.ok (), true, ""⟩,
       ExecOutcome.exited 0 "" "", ExecOutcome.exited 0 "" ""⟩
      [] "/usr/bin/rl" 1 [97] "/tmp" []).1 (by decide)
  · exact (c1_reload_two_phase
      ⟨⟨Except.ok (), Except.ok (), Except.ok (), true, ""⟩,
       ExecOutcome.exited 2 "" "", ExecOutcome.exited 0 "" ""⟩
      [] "/usr/bin/rl" 1 [97] "/tmp" []).2.1 (by decide)
  · exact (c1_reload_two_phase
      ⟨⟨Except.ok (), Except.ok (), Except.ok (), true, ""⟩,
       ExecOutcome.exited 0 "" "", ExecOutcome.exited 0 "" ""⟩
      [] "/usr/bin/rl" 1 [97] "/tmp" []).2.2.2.mpr (by decide)

/-! Claim C5. -/

/-- C5 counterexample: the claim that any two outcomes from different failure
stages produce different strings is false.  Here are two concrete runs, one
failing in the validation stage (only `--test` was invoked) and one failing in
the apply stage (both `--test` and `--reload` were invoked), whose collapsed
response strings are both `Reloading error` — the code maps both stages to
the single variant `FrrErr::ReloadErr`. -/
theorem c5_describe_counterexample :
    (do_frr_reload
        ⟨⟨Except.ok (), Except.ok (), Except.ok (), true, ""⟩,
         ExecOutcome.exited 1 "" "", ExecOutcome.exited 0 "" ""⟩
        [] "/usr/bin/rl" 3 [97] "/tmp" []).2.2 = [Phase.test] ∧
    (do_frr_reload
        ⟨⟨Except.ok (), Except.ok (), Except.ok (), true, ""⟩,
         ExecOutcome.exited 0 "" "", ExecOutcome.exited 1 "" ""⟩
        [] "/usr/bin/rl" 3 [97] "/tmp" []).2.2 = [Phase.test, Phase.reload] ∧
    (frr_reload
        ⟨⟨Except.ok (), Except.ok (), Except.ok (), true, ""⟩,
         ExecOutcome.exited 1 "" "", ExecOutcome.exited 0 "" ""⟩
        [] "/usr/bin/rl" 3 [97] "/tmp" []).1 = "Reloading error" ∧
    (frr_reload
        ⟨⟨Except.ok (), Except.ok (), Except.ok (), true, ""⟩,
         ExecOutcome.exited 0 "" "", ExecOutcome.exited 1 "" ""⟩
        [] "/usr/bin/rl" 3 [97] "/tmp" []).1 =
      (frr_reload
        ⟨⟨Except.ok (), Except.ok (), Except.ok (), true, ""⟩,
         ExecOutcome.exited 1 "" "", ExecOutcome.exited 0 "" ""⟩
        [] "/usr/bin/rl" 3 [97] "/tmp" []).1 :=
  ⟨rfl, rfl, rfl, rfl⟩

/-- C5 (amended): the collapsing function maps `Success` to `Ok`, and the
failure strings disambiguate the staging, spawn, and wait stages from each
other and from success; however, validation failure and apply failure are both
collapsed to the single variant `ReloadErr` and hence to the identical string
`Reloading error`, so those two stages are not disambiguated. -/
theorem c5_describe_amended (d e : String) :
    (frr_reload
        ⟨⟨Except.ok (), Except.ok (), Except.ok (), true, ""⟩,
         ExecOutcome.exited 0 "" "", ExecOutcome.exited 0 "" ""⟩
        [] "/usr/bin/rl" 3 [97] "/tmp" []).1 = "Ok" ∧
    FrrErr.asString FrrErr.ReloadErr = "Reloading error" ∧
    (FrrErr.COnfigFileWriteFailed d).asString ≠ (FrrErr.CmdSpawnFailed e).asString ∧
    (FrrErr.COnfigFileWriteFailed d).asString ≠ (FrrErr.CmdWaitFailed e).asString ∧
    (FrrErr.CmdSpawnFailed d).asString ≠ (FrrErr.CmdWaitFailed e).asString ∧
    (FrrErr.COnfigFileWriteFailed d).asString ≠ FrrErr.asString FrrErr.ReloadErr ∧
    (FrrErr.CmdSpawnFailed d).asString ≠ FrrErr.asString FrrErr.ReloadErr ∧
    (FrrErr.CmdWaitFailed d).asString ≠ FrrErr.asString FrrErr.ReloadErr ∧
    (FrrErr.COnfigFileWriteFailed d).asString ≠ "Ok" ∧
    (FrrErr.CmdSpawnFailed d).asString ≠ "Ok" ∧
    (FrrErr.CmdWaitFailed d).asString ≠ "Ok" ∧
    FrrErr.asString FrrErr.ReloadErr ≠ "Ok" := by
  refine ⟨rfl, rfl, ?_, ?_, ?_, ?_, ?_, ?_, ?_, ?_, ?_, ?_⟩
  · exact append_ne_append_of_char _ d _ e 10 (by decide) (by decide) (by decide)
  · exact append_ne_append_of_char _ d _ e 11 (by decide) (by decide) (by decide)
  · exact append_ne_append_of_char _ d _ e 10 (by decide) (by decide) (by decide)
  · exact append_ne_of_char _ d _ 0 (by decide) (by decide)
  · exact append_ne_of_char _ d _ 0 (by decide) (by decide)
  · exact append_ne_of_char _ d _ 0 (by decide) (by decide)
  · exact frrErr_asString_ne_Ok (FrrErr.COnfigFileWriteFailed d)
  · exact frrErr_asString_ne_Ok (FrrErr.CmdSpawnFailed d)
  · exact frrErr_asString_ne_Ok (FrrErr.CmdWaitFailed d)
  · exact frrErr_asString_ne_Ok FrrErr.ReloadErr

/-! Claim C6. -/

/-- C6: the staged file path is fully determined by the pair of output
directory and generation id, and staging the same generation id twice with
different payloads leaves the file containing exactly the second payload
(truncate-and-overwrite, never append). -/
theorem c6_staging_path_overwrite (e1 e2 : StageEnv) (fs : FsState)
    (genid : GenId) (p1 p2 : List Nat) (outdir : String)
    (h1 : e1.allOk = true) (h2 : e2.allOk = true) :
    (write_config_file e1 fs genid p1 outdir).1 =
      Except.ok (conf_file_path outdir genid) ∧
    (write_config_file e2 (write_config_file e1 fs genid p1 outdir).2
        genid p2 outdir).1 = Except.ok (conf_file_path outdir genid) ∧
    List.lookup (conf_file_path outdir genid)
      (write_config_file e2 (write_config_file e1 fs genid p1 outdir).2
        genid p2 outdir).2 = some p2 := by
  rw [write_config_file_ok e1 fs genid p1 outdir h1]
  rw [write_config_file_ok e2 _ genid p2 outdir h2]
  refine ⟨rfl, rfl, ?_⟩
  simp [fsSet, List.lookup]

/-- Witness for C6 at a concrete double staging of generation 5. -/
theorem c6_witness :
    (write_config_file ⟨Except.ok (), Except.ok (), Except.ok (), true, ""⟩
        [] 5 [1] "/d").1 = Except.ok (conf_file_path "/d" 5) ∧
    (write_config_file ⟨Except.ok (), Except.ok (), Except.ok (), true, ""⟩
        (write_config_file ⟨Except.ok (), Except.ok (), Except.ok (), true, ""⟩
          [] 5 [1] "/d").2 5 [2] "/d").1 = Except.ok (conf_file_path "/d" 5) ∧
    List.lookup (conf_file_path "/d" 5)
      (write_config_file ⟨Except.ok (), Except.ok (), Except.ok (), true, ""⟩
        (write_config_file ⟨Except.ok (), Except.ok (), Except.ok (), true, ""⟩
          [] 5 [1] "/d").2 5 [2] "/d").2 = some [2] :=
  c6_staging_path_overwrite
    ⟨Except.ok (), Except.ok (), Except.ok (), true, ""⟩
    ⟨Except.ok (), Except.ok (), Except.ok (), true, ""⟩
    [] 5 [1] [2] "/d" rfl rfl

/-! Claim C9. -/

/-- C9: if the configuration is written to the staged file but the diagnostic
read-back fails, staging returns a staging failure — no subprocess is invoked
and the collapsed response is a failure string, not `Ok` — even though the
staged file already exists on disk with the full configuration content. -/
theorem c9_readback_failure (fs : FsState) (genid : GenId) (config : List Nat)
    (outdir reloader : String) (reload_args : List String) (d : String)
    (te re : ExecOutcome) :
    (write_config_file ⟨Except.ok (), Except.ok (), Except.ok (), false, d⟩
        fs genid config outdir).1 =
      Except.error (FrrErr.COnfigFileWriteFailed
        ("Unable to read written file: " ++ d)) ∧
    List.lookup (conf_file_path outdir genid)
      (write_config_file ⟨Except.ok (), Except.ok (), Except.ok (), false, d⟩
        fs genid config outdir).2 = some config ∧
    (do_frr_reload ⟨⟨Except.ok (), Except.ok (), Except.ok (), false, d⟩, te, re⟩
        fs reloader genid config outdir reload_args).2.2 = [] ∧
    (frr_reload ⟨⟨Except.ok (), Except.ok (), Except.ok (), false, d⟩, te, re⟩
        fs reloader genid config outdir reload_args).1 ≠ "Ok" := by
  have hw : write_config_file ⟨Except.ok (), Except.ok (), Except.ok (), false, d⟩
      fs genid config outdir =
      (Except.error (FrrErr.COnfigFileWriteFailed
        ("Unable to read written file: " ++ d)),
       fsSet (fsSet fs (conf_file_path outdir genid) [])
         (conf_file_path outdir genid) config) := rfl
  have hdo : do_frr_reload ⟨⟨Except.ok (), Except.ok (), Except.ok (), false, d⟩, te, re⟩
      fs reloader genid config outdir reload_args =
      (Except.error (FrrErr.COnfigFileWriteFailed
        ("Unable to read written file: " ++ d)),
       fsSet (fsSet fs (conf_file_path outdir genid) [])
         (conf_file_path outdir genid) config, []) := by
    simp only [do_frr_reload, hw]
  refine ⟨by rw [hw], ?_, by rw [hdo], ?_⟩
  · rw [hw]
    simp [fsSet, List.lookup]
  · have hfr : (frr_reload
        ⟨⟨Except.ok (), Except.ok (), Except.ok (), false, d⟩, te, re⟩
        fs reloader genid config outdir reload_args).1 =
        (FrrErr.COnfigFileWriteFailed
          ("Unable to read written file: " ++ d)).asString := by
      simp only [frr_reload, hdo]
    rw [hfr]
    exact frrErr_asString_ne_Ok _

/-! Claim C3. -/

/-- C3 counterexample: the round-trip does not hold for every pair, because
the decoder validates that the payload is UTF-8 text.  Encoding generation id
0 with the single non-UTF-8 payload byte 255 produces a frame the decoder
rejects instead of returning the pair. -/
theorem c3_roundtrip_counterexample :
    receive_request (send_response 0 [255]) ≠ Except.ok ((0, [255]), []) ∧
    receive_request (send_response 0 [255]) =
      Except.error "Could not decode request body" :=
  ⟨fun h => Except.noConfusion (h.symm.trans rfl), rfl⟩

/-- C3 (amended): for every pair of generation id (in the i64 range the wire
field carries) and payload bytes that are valid UTF-8 text (with length in
the u64 range of the length field), decoding the frame produced by encoding
the pair yields exactly the same generation id and the same payload bytes,
with nothing left over. -/
theorem c3_frame_roundtrip (g : Int) (msg : List Nat)
    (hg1 : -(2 : Int) ^ 63 ≤ g) (hg2 : g < 2 ^ 63)
    (hlen : msg.length < 2 ^ 64) (hutf : validUtf8 msg = true) :
    receive_request (send_response g msg) = Except.ok ((g, msg), []) :=
  receive_send_roundtrip g msg hg1 hg2 hlen hutf

/-- Witness for C3 at generation id 7 and payload `hi`. -/
theorem c3_witness :
    receive_request (send_response 7 [104, 105]) = Except.ok ((7, [104, 105]), []) :=
  c3_frame_roundtrip 7 [104, 105] (by decide) (by decide) (by decide) (by decide)

/-! Claim C7. -/

/-- C7: decoding a request succeeds exactly when at least 16 header bytes
arrive, at least the announced number of payload bytes follows them, and the
payload bytes are valid UTF-8 (the fourth condition of the claim, a payload
length not representable as a platform size, cannot occur on the 64-bit
targets the agent runs on, where `usize::try_from(u64)` is infallible); and
every successful decode returns the generation id from bytes 8..16, the
payload bytes, and the rest of the stream. -/
theorem c7_decode_characterization (stream : List Nat) :
    ((∃ v, receive_request stream = Except.ok v) ↔
      (16 ≤ stream.length ∧
       fromLeBytes (stream.take 8) + 16 ≤ stream.length ∧
       validUtf8 ((stream.drop 16).take (fromLeBytes (stream.take 8))) = true)) ∧
    (∀ g p rest, receive_request stream = Except.ok ((g, p), rest) →
      g = i64FromLeBytes ((stream.drop 8).take 8) ∧
      p = (stream.drop 16).take (fromLeBytes (stream.take 8)) ∧
      rest = (stream.drop 16).drop (fromLeBytes (stream.take 8))) := by
  constructor
  · constructor
    · rintro ⟨v, hv⟩
      obtain ⟨h16, hN, hU, -⟩ := receive_request_ok_shape hv
      exact ⟨h16, hN, hU⟩
    · rintro ⟨h16, hN, hU⟩
      exact ⟨_, receive_request_ok stream h16 hN hU⟩
  · intro g p rest h
    obtain ⟨-, -, -, hv⟩ := receive_request_ok_shape h
    exact ⟨congrArg (fun x => x.1.1) hv, congrArg (fun x => x.1.2) hv,
      congrArg (fun x => x.2) hv⟩

/-- Witness for C7 on the concrete 17-byte stream announcing a 1-byte payload
for generation 9: both the characterization and the returned-value clause
apply. -/
theorem c7_witness :
    (16 ≤ ([1, 0, 0, 0, 0, 0, 0, 0, 9, 0, 0, 0, 0, 0, 0, 0, 65] : List Nat).length ∧
     fromLeBytes (([1, 0, 0, 0, 0, 0, 0, 0, 9, 0, 0, 0, 0, 0, 0, 0, 65] : List Nat).take 8) + 16 ≤
       ([1, 0, 0, 0, 0, 0, 0, 0, 9, 0, 0, 0, 0, 0, 0, 0, 65] : List Nat).length ∧
     validUtf8 ((([1, 0, 0, 0, 0, 0, 0, 0, 9, 0, 0, 0, 0, 0, 0, 0, 65] : List Nat).drop 16).take
       (fromLeBytes (([1, 0, 0, 0, 0, 0, 0, 0, 9, 0, 0, 0, 0, 0, 0, 0, 65] : List Nat).take 8))) = true) ∧
    ((9 : GenId) = i64FromLeBytes
        ((([1, 0, 0, 0, 0, 0, 0, 0, 9, 0, 0, 0, 0, 0, 0, 0, 65] : List Nat).drop 8).take 8) ∧
     ([65] : List Nat) = (([1, 0, 0, 0, 0, 0, 0, 0, 9, 0, 0, 0, 0, 0, 0, 0, 65] : List Nat).drop 16).take
       (fromLeBytes (([1, 0, 0, 0, 0, 0, 0, 0, 9, 0, 0, 0, 0, 0, 0, 0, 65] : List Nat).take 8)) ∧
     ([] : List Nat) = (([1, 0, 0, 0, 0, 0, 0, 0, 9, 0, 0, 0, 0, 0, 0, 0, 65] : List Nat).drop 16).drop
       (fromLeBytes (([1, 0, 0, 0, 0, 0, 0, 0, 9, 0, 0, 0, 0, 0, 0, 0, 65] : List Nat).take 8))) :=
  ⟨(c7_decode_characterization
      [1, 0, 0, 0, 0, 0, 0, 0, 9, 0, 0, 0, 0, 0, 0, 0, 65]).1.mp ⟨_, rfl⟩,
   (c7_decode_characterization
      [1, 0, 0, 0, 0, 0, 0, 0, 9, 0, 0, 0, 0, 0, 0, 0, 65]).2 9 [65] [] rfl⟩

/-! Helper lemmas: trace scanners. -/

theorem reloadScan_none (tr : List Event) : reloadScan none tr = none := by
  cases tr with
  | nil => rfl
  | cons e t => cases e <;> rfl

theorem rrScan_none (tr : List Event) : rrScan none tr = none := by
  cases tr with
  | nil => rfl
  | cons e t => cases e <;> rfl

theorem reloadScan_append (l1 l2 : List Event) :
    ∀ s, reloadScan s (l1 ++ l2) = reloadScan (reloadScan s l1) l2 := by
  induction l1 with
  | nil => intro s; cases s <;> simp [reloadScan_none, reloadScan]
  | cons e t ih =>
    intro s
    cases s with
    | none => simp [reloadScan_none]
    | some k =>
      cases e with
      | reloadStart g =>
        simp only [List.cons_append, reloadScan]
        split
        · exact ih _
        · exact (reloadScan_none l2).symm
      | reloadEnd g =>
        simp only [List.cons_append, reloadScan]
        split
        · exact ih _
        · exact (reloadScan_none l2).symm
      | recv g => simpa only [List.cons_append, reloadScan] using ih _
      | sleep n => simpa only [List.cons_append, reloadScan] using ih _
      | exec p => simpa only [List.cons_append, reloadScan] using ih _
      | respond g m => simpa only [List.cons_append, reloadScan] using ih _

theorem reloadScan_neutral (tr : List Event)
    (h : ∀ e ∈ tr, e.isReloadMark = false) (k : Nat) :
    reloadScan (some k) tr = some k := by
  induction tr with
  | nil => rfl
  | cons e t ih =>
    have he := h e (by simp)
    have ht := fun x hx => h x (List.mem_cons_of_mem e hx)
    cases e <;> simp_all [reloadScan, Event.isReloadMark]

theorem rrScan_append (l1 l2 : List Event) :
    ∀ s, rrScan s (l1 ++ l2) = rrScan (rrScan s l1) l2 := by
  induction l1 with
  | nil => intro s; cases s <;> simp [rrScan_none, rrScan]
  | cons e t ih =>
    intro s
    cases s with
    | none => simp [rrScan_none]
    | some b =>
      cases e with
      | recv g =>
        simp only [List.cons_append, rrScan]
        split
        · exact (rrScan_none l2).symm
        · exact ih _
      | respond g m =>
        simp only [List.cons_append, rrScan]
        split
        · exact ih _
        · exact (rrScan_none l2).symm
      | sleep n => simpa only [List.cons_append, rrScan] using ih _
      | exec p => simpa only [List.cons_append, rrScan] using ih _
      | reloadStart g => simpa only [List.cons_append, rrScan] using ih _
      | reloadEnd g => simpa only [List.cons_append, rrScan] using ih _

theorem rrScan_neutral (tr : List Event)
    (h : ∀ e ∈ tr, e.isRecv = false ∧ e.isRespond = false) (b : Bool) :
    rrScan (some b) tr = some b := by
  induction tr with
  | nil => rfl
  | cons e t ih =>
    have he := h e (by simp)
    have ht := fun x hx => h x (List.mem_cons_of_mem e hx)
    cases e <;> simp_all [rrScan, Event.isRecv, Event.isRespond]

theorem countRecv_eq_zero (tr : List Event)
    (h : ∀ e ∈ tr, e.isRecv = false ∧ e.isRespond = false) : countRecv tr = 0 := by
  unfold countRecv
  exact List.countP_eq_zero.mpr (fun e he => by simp [(h e he).1])

theorem countRecv_append (l1 l2 : List Event) :
    countRecv (l1 ++ l2) = countRecv l1 + countRecv l2 := by
  simp [countRecv, List.countP_append]

theorem countRecv_cons_recv (g : GenId) (tr : List Event) :
    countRecv (Event.recv g :: tr) = countRecv tr + 1 := by
  simp [countRecv, List.countP_cons, Event.isRecv]

theorem countRecv_cons_respond (g : GenId) (m : String) (tr : List Event) :
    countRecv (Event.respond g m :: tr) = countRecv tr := by
  simp [countRecv, List.countP_cons, Event.isRecv]

theorem rrScan_cons_recv_idle (g : GenId) (tr : List Event) :
    rrScan (some false) (Event.recv g :: tr) = rrScan (some true) tr := rfl

theorem rrScan_cons_respond_pending (g : GenId) (m : String) (tr : List Event) :
    rrScan (some true) (Event.respond g m :: tr) = rrScan (some false) tr := rfl

/-- Every event of a request handling is internal to the handler: the trace
contains no `recv` and no `respond` events. -/
theorem handle_request_events (a : Args) (env : ReloadEnv) (fs : FsState)
    (genid : GenId) (request : List Nat) :
    ∀ ev ∈ (handle_request a env fs genid request).2.2,
      ev.isRecv = false ∧ ev.isRespond = false := by
  intro ev hev
  have hpt : ∀ x ∈ proc_time_events a, x.isRecv = false ∧ x.isRespond = false := by
    cases h : a.proc_time <;> intro x hx <;>
      simp [proc_time_events, h] at hx
    simp [hx, Event.isRecv, Event.isRespond]
  by_cases h1 : request = KEEPALIVE
  · simp only [handle_request, dispatch, if_pos h1, List.append_nil] at hev
    exact hpt ev hev
  · by_cases h2 : a.always_ok
    · simp only [handle_request, dispatch, if_neg h1, if_pos h2,
        List.append_nil] at hev
      exact hpt ev hev
    · simp only [handle_request, dispatch, if_neg h1, if_neg h2,
        List.mem_append] at hev
      rcases hev with hev | hev
      · exact hpt ev hev
      · rcases List.mem_cons.mp hev with rfl | hev
        · exact ⟨rfl, rfl⟩
        rcases List.mem_append.mp hev with hev | hev
        · obtain ⟨ph, -, rfl⟩ := List.mem_map.mp hev
          exact ⟨rfl, rfl⟩
        · rcases List.mem_cons.mp hev with rfl | hev
          · exact ⟨rfl, rfl⟩
          · simp at hev

/-- Along one request handling, the reload sequence (when one happens at all)
starts and finishes inside the handler's own trace: scanning it from the idle
state returns to the idle state without ever seeing two reloads in flight. -/
theorem handle_request_reload_serial (a : Args) (env : ReloadEnv) (fs : FsState)
    (genid : GenId) (request : List Nat) :
    reloadScan (some 0) (handle_request a env fs genid request).2.2 = some 0 := by
  have hpt : ∀ x ∈ proc_time_events a, Event.isReloadMark x = false := by
    cases h : a.proc_time <;> intro x hx <;>
      simp [proc_time_events, h] at hx
    simp [hx, Event.isReloadMark]
  have hmap : ∀ (l : List Phase) (k : Nat),
      reloadScan (some k) (l.map Event.exec) = some k := by
    intro l k
    refine reloadScan_neutral _ (fun e he => ?_) k
    obtain ⟨ph, -, rfl⟩ := List.mem_map.mp he
    rfl
  by_cases h1 : request = KEEPALIVE
  · simp only [handle_request, dispatch, if_pos h1, List.append_nil]
    exact reloadScan_neutral _ hpt 0
  · by_cases h2 : a.always_ok
    · simp only [handle_request, dispatch, if_neg h1, if_pos h2, List.append_nil]
      exact reloadScan_neutral _ hpt 0
    · simp only [handle_request, dispatch, if_neg h1, if_neg h2]
      rw [reloadScan_append, reloadScan_neutral _ hpt 0]
      simp only [reloadScan, if_pos rfl]
      rw [reloadScan_append, hmap]
      rfl

/-! Helper lemmas: session loop traces. -/

theorem session_go_reload_serial (a : Args) (renv : Nat → ReloadEnv)
    (sends : Nat → Bool) :
    ∀ (fuel i : Nat) (stream : List Nat) (fs : FsState),
      reloadScan (some 0) (session_go a renv sends fuel i stream fs).2 = some 0 := by
  intro fuel
  induction fuel with
  | zero => intro i stream fs; rfl
  | succ fuel ih =>
    intro i stream fs
    simp only [session_go]
    cases h : receive_request stream with
    | error e => rfl
    | ok v =>
      obtain ⟨⟨genid, request⟩, rest⟩ := v
      dsimp only
      by_cases hs : sends i
      · simp only [if_pos hs]
        simp only [reloadScan]
        rw [reloadScan_append, handle_request_reload_serial]
        simp only [reloadScan]
        exact ih _ _ _
      · simp only [if_neg hs]
        simp only [reloadScan]
        exact handle_request_reload_serial a (renv i) fs genid request

theorem session_go_responses (a : Args) (renv : Nat → ReloadEnv)
    (sends : Nat → Bool) (hs : ∀ j, sends j = true) :
    ∀ fuel : Nat, ∀ stream : List Nat, stream.length < fuel →
      ∀ (i : Nat) (fs : FsState),
      rrScan (some false) (session_go a renv sends fuel i stream fs).2 = some false ∧
      countRecv (session_go a renv sends fuel i stream fs).2 = frames_go fuel stream := by
  intro fuel
  induction fuel with
  | zero => intro stream hlt; omega
  | succ fuel ih =>
    intro stream hlt i fs
    simp only [session_go, frames_go]
    cases h : receive_request stream with
    | error e => exact ⟨rfl, rfl⟩
    | ok v =>
      obtain ⟨⟨genid, request⟩, rest⟩ := v
      have hrest : rest.length < fuel := by
        have := receive_request_rest_lt h
        simp only at this
        omega
      dsimp only
      rw [if_pos (hs i)]
      have hih := ih rest hrest (i + 1)
        (handle_request a (renv i) fs genid request).2.1
      constructor
      · rw [rrScan_cons_recv_idle, rrScan_append,
          rrScan_neutral _ (handle_request_events a (renv i) fs genid request) true,
          rrScan_cons_respond_pending]
        exact hih.1
      · have h0 : countRecv (handle_request a (renv i) fs genid request).2.2 = 0 :=
          countRecv_eq_zero _ (handle_request_events a (renv i) fs genid request)
        rw [countRecv_cons_recv, countRecv_append, h0, countRecv_cons_respond,
          hih.2]
        omega

theorem session_loop_reload_serial (a : Args) (renv : Nat → ReloadEnv)
    (sends : Nat → Bool) (stream : List Nat) (fs : FsState) :
    reloadScan (some 0) (session_loop a renv sends stream fs).2 = some 0 :=
  session_go_reload_serial a renv sends _ 0 stream fs

/-! Claim C2. -/

/-- C2: at most one reload is in flight across the whole process at any time.
The agent's single thread serves connections and requests strictly in
sequence (the only other thread is the signal handler, which never reloads),
so the process trace is a linear event sequence; scanning it shows that a
reload sequence never starts while another one is in flight — every
`reloadStart` happens with zero reloads in flight and is matched by its
`reloadEnd` before the next one starts, across all connections served. -/
theorem c2_at_most_one_reload (a : Args) (conns : List Conn) (fs : FsState) :
    reloadScan (some 0) (main_loop a conns fs).2 = some 0 := by
  induction conns generalizing fs with
  | nil => rfl
  | cons c rest ih =>
    simp only [main_loop]
    rw [reloadScan_append, session_loop_reload_serial]
    exact ih _

/-! Claim C8. -/

/-- C8: every per-request reload error is recovered at the session boundary
and converted into a response, so (when the transport delivers responses)
every successfully decoded request yields exactly one response on the same
connection before the next request is read — the `recv`/`respond` events of
the session trace alternate strictly — and the number of requests processed
equals the number of well-formed frames of the stream, independently of the
reload environment: no reload failure terminates the session or keeps a
frame from being processed. -/
theorem c8_session_recovery (a : Args) (renv : Nat → ReloadEnv)
    (sends : Nat → Bool) (stream : List Nat) (fs : FsState)
    (hs : ∀ j, sends j = true) :
    rrScan (some false) (session_loop a renv sends stream fs).2 = some false ∧
    countRecv (session_loop a renv sends stream fs).2 = frames stream :=
  session_go_responses a renv sends hs (stream.length + 1) stream
    (Nat.lt_succ_self _) 0 fs

/-- Witness for C8: a two-frame stream whose reload environment fails every
validation still gets both requests decoded and answered. -/
theorem c8_witness :
    rrScan (some false)
      (session_loop ⟨none, none, none, none, none, false, none⟩
        (fun _ => ⟨⟨Except.ok (), Except.ok (), Except.ok (), true, ""⟩,
          ExecOutcome.exited 1 "" "", ExecOutcome.exited 0 "" ""⟩)
        (fun _ => true)
        (send_response 2 [97] ++ send_response 3 [98]) []).2 = some false ∧
    countRecv
      (session_loop ⟨none, none, none, none, none, false, none⟩
        (fun _ => ⟨⟨Except.ok (), Except.ok (), Except.ok (), true, ""⟩,
          ExecOutcome.exited 1 "" "", ExecOutcome.exited 0 "" ""⟩)
        (fun _ => true)
        (send_response 2 [97] ++ send_response 3 [98]) []).2 =
      frames (send_response 2 [97] ++ send_response 3 [98]) :=
  c8_session_recovery ⟨none, none, none, none, none, false, none⟩
    (fun _ => ⟨⟨Except.ok (), Except.ok (), Except.ok (), true, ""⟩,
      ExecOutcome.exited 1 "" "", ExecOutcome.exited 0 "" ""⟩)
    (fun _ => true)
    (send_response 2 [97] ++ send_response 3 [98]) [] (fun _ => rfl)

/-! Claim C4. -/

/-- C4: the dispatch policy per decoded request, in priority order.  A payload
equal to `KEEPALIVE` is answered `Ok` without invoking the orchestrator and
without touching the filesystem (empty dispatch trace, state unchanged);
otherwise, in forced-success mode, the answer is `Ok` with no subprocess
invoked and the filesystem untouched; otherwise the reload orchestrator runs
and its collapsed outcome string is the response. -/
theorem c4_dispatch_policy (a : Args) (env : ReloadEnv) (fs : FsState)
    (genid : GenId) (request : List Nat) :
    (request = KEEPALIVE →
      dispatch a env fs genid request = ("Ok", fs, [])) ∧
    (request ≠ KEEPALIVE → a.always_ok = true →
      dispatch a env fs genid request = ("Ok", fs, [])) ∧
    (request ≠ KEEPALIVE → a.always_ok = false →
      (dispatch a env fs genid request).1 =
        (frr_reload env fs a.reloaderD genid request a.outdirD
          (build_reload_args a)).1 ∧
      (dispatch a env fs genid request).2.1 =
        (frr_reload env fs a.reloaderD genid request a.outdirD
          (build_reload_args a)).2.1 ∧
      Event.reloadStart genid ∈ (dispatch a env fs genid request).2.2) := by
  refine ⟨fun h1 => ?_, fun h1 h2 => ?_, fun h1 h2 => ?_⟩
  · simp [dispatch, h1]
  · simp [dispatch, h1, h2]
  · simp [dispatch, h1, h2]

/-- Witness for C4 at concrete inputs for all three dispatch branches. -/
theorem c4_witness :
    dispatch ⟨none, none, none, none, none, true, none⟩
      ⟨⟨Except.ok (), Except.ok (), Except.ok (), true, ""⟩,
       ExecOutcome.exited 1 "" "", ExecOutcome.exited 0 "" ""⟩
      [] 7 KEEPALIVE = ("Ok", [], []) ∧
    dispatch ⟨none, none, none, none, none, true, none⟩
      ⟨⟨Except.ok (), Except.ok (), Except.ok (), true, ""⟩,
       ExecOutcome.exited 1 "" "", ExecOutcome.exited 0 "" ""⟩
      [] 7 [103] = ("Ok", [], []) ∧
    (dispatch ⟨none, none, none, none, none, false, none⟩
      ⟨⟨Except.ok (), Except.ok (), Except.ok (), true, ""⟩,
       ExecOutcome.exited 1 "" "", ExecOutcome.exited 0 "" ""⟩
      [] 7 [103]).1 =
      (frr_reload
        ⟨⟨Except.ok (), Except.ok (), Except.ok (), true, ""⟩,
         ExecOutcome.exited 1 "" "", ExecOutcome.exited 0 "" ""⟩
        [] (Args.reloaderD ⟨none, none, none, none, none, false, none⟩) 7 [103]
        (Args.outdirD ⟨none, none, none, none, none, false, none⟩)
        (build_reload_args ⟨none, none, none, none, none, false, none⟩)).1 := by
  refine ⟨?_, ?_, ?_⟩
  · exact (c4_dispatch_policy ⟨none, none, none, none, none, true, none⟩
      ⟨⟨Except.ok (), Except.ok (), Except.ok (), true, ""⟩,
       ExecOutcome.exited 1 "" "", ExecOutcome.exited 0 "" ""⟩
      [] 7 KEEPALIVE).1 rfl
  · exact (c4_dispatch_policy ⟨none, none, none, none, none, true, none⟩
      ⟨⟨Except.ok (), Except.ok (), Except.ok (), true, ""⟩,
       ExecOutcome.exited 1 "" "", ExecOutcome.exited 0 "" ""⟩
      [] 7 [103]).2.1 (by decide) rfl
  · exact ((c4_dispatch_policy ⟨none, none, none, none, none, false, none⟩
      ⟨⟨Except.ok (), Except.ok (), Except.ok (), true, ""⟩,
       ExecOutcome.exited 1 "" "", ExecOutcome.exited 0 "" ""⟩
      [] 7 [103]).2.2 (by decide) rfl).1

/-! Claim C10. -/

/-- C10: for every successfully decoded request, the configured artificial
processing delay runs before the dispatch decision: whenever the delay is
configured, the handling trace is the sleep event followed by the dispatch
trace, for every request kind — `KEEPALIVE` probes and forced-success-mode
requests included — not only for requests that reach the reload
orchestrator. -/
theorem c10_delay_before_dispatch (a : Args) (env : ReloadEnv) (fs : FsState)
    (genid : GenId) (request : List Nat) (t : Nat)
    (h : a.proc_time = some t) :
    (handle_request a env fs genid request).2.2 =
      Event.sleep t :: (dispatch a env fs genid request).2.2 := by
  simp [handle_request, proc_time_events, h]

/-- Witness for C10: with a 3-second configured delay, the handling trace of
a `KEEPALIVE` probe begins with the sleep event. -/
theorem c10_witness :
    (handle_request ⟨none, none, none, none, none, false, some 3⟩
      ⟨⟨Except.ok (), Except.ok (), Except.ok (), true, ""⟩,
       ExecOutcome.exited 0 "" "", ExecOutcome.exited 0 "" ""⟩
      [] 7 KEEPALIVE).2.2 =
      Event.sleep 3 :: (dispatch ⟨none, none, none, none, none, false, some 3⟩
        ⟨⟨Except.ok (), Except.ok (), Except.ok (), true, ""⟩,
         ExecOutcome.exited 0 "" "", ExecOutcome.exited 0 "" ""⟩
        [] 7 KEEPALIVE).2.2 :=
  c10_delay_before_dispatch ⟨none, none, none, none, none, false, some 3⟩
    ⟨⟨Except.ok (), Except.ok (), Except.ok (), true, ""⟩,
     ExecOutcome.exited 0 "" "", ExecOutcome.exited 0 "" ""⟩
    [] 7 KEEPALIVE 3 rfl
